import Mathlib

/-!
Verification of `jira_to_slack_report.py` — a Jira → Slack report script.

The script reads configuration from environment variables, renders a report
from a (hard-coded, placeholder) issue list, and posts it to Slack through
`chat.postMessage`.  We embed the data model and the control flow of `main`,
the renderer (lines 74–78), `slack_post_message` (lines 48–55) and
`format_date` (lines 37–46) shallowly: environment reads become an explicit
`Env` record, exceptions become `Except`, the network becomes an injected
response function, and the run is summarised by the list of outbound calls
plus the process exit status.
-/

/-- An issue's `fields` mapping as the renderer accesses it:
`fields.summary`, `fields.status.name`, `fields.assignee.displayName`.
Each member is optional because the underlying JSON dictionary is sparse;
an absent member makes the corresponding dictionary lookup raise `KeyError`. -/
structure IssueFields where
  summary : Option String
  statusName : Option String
  assigneeDisplayName : Option String
deriving DecidableEq

/-- One Jira issue as the script consumes it: `iss["key"]` and `iss["fields"]`. -/
structure Issue where
  key : Option String
  fields : IssueFields
deriving DecidableEq

/-- The environment variables the script reads (`env(name, default)` wraps
`os.getenv`).  `none` models an unset variable.  `SLACK_CHUNK_LIMIT` is
documented in the module docstring but never read by `main`. -/
structure Env where
  JIRA_BASE_URL : Option String
  JIRA_EMAIL : Option String
  JIRA_API_TOKEN : Option String
  JIRA_JQL : Option String
  JIRA_FIELDS : Option String
  SLACK_BOT_TOKEN : Option String
  SLACK_CHANNEL_ID : Option String
  TITLE : Option String
  TIMEZONE : Option String
  SLACK_MESSAGE_MODE : Option String
  SLACK_CHUNK_LIMIT : Option String
deriving DecidableEq

/-- Python truthiness of an optional environment value: `None` and the empty
string are falsy, every other string is truthy (as used in
`all([base, email, token, jql, slack_token, channel_id])`). -/
def truthy : Option String → Bool
  | none => false
  | some s => !s.isEmpty

/-- The guard at line 66: all six required configuration values are present
(`JIRA_FIELDS` is deliberately not among them). -/
def requiredPresent (e : Env) : Bool :=
  truthy e.JIRA_BASE_URL && truthy e.JIRA_EMAIL && truthy e.JIRA_API_TOKEN &&
  truthy e.JIRA_JQL && truthy e.SLACK_BOT_TOKEN && truthy e.SLACK_CHANNEL_ID

/-- The default field list used when `JIRA_FIELDS` is unset or empty. -/
def defaultFields : List String := ["key", "summary", "status", "assignee", "updated"]

/-- Line 60: `[s.strip() for s in fields_csv.split(",")] if fields_csv else
["key","summary","status","assignee","updated"]`. -/
def fieldsOf (e : Env) : List String :=
  match e.JIRA_FIELDS with
  | none => defaultFields
  | some s => if s.isEmpty then defaultFields else (s.splitOn ",").map String.trim

/-- Line 76: the per-issue report line
`- {key} — {summary} (Status: {name}, Assignee: {displayName})`.
A missing dictionary member raises `KeyError`, modelled as `Except.error`. -/
def renderIssueLine (iss : Issue) : Except String String :=
  match iss.key with
  | none => Except.error "KeyError: key"
  | some k =>
    match iss.fields.summary with
    | none => Except.error "KeyError: summary"
    | some summ =>
      match iss.fields.statusName with
      | none => Except.error "KeyError: status"
      | some st =>
        match iss.fields.assigneeDisplayName with
        | none => Except.error "KeyError: assignee"
        | some asg =>
          Except.ok ("- " ++ k ++ " — " ++ summ ++ " (Status: " ++ st ++
            ", Assignee: " ++ asg ++ ")")

/-- The loop at lines 75–76: append one rendered line per issue, in order;
the first `KeyError` aborts the loop (the exception propagates). -/
def buildLines : List Issue → Except String (List String)
  | [] => Except.ok []
  | iss :: rest =>
    match renderIssueLine iss with
    | Except.error e => Except.error e
    | Except.ok l =>
      match buildLines rest with
      | Except.error e => Except.error e
      | Except.ok ls => Except.ok (l :: ls)

/-- Lines 74–78: `lines = [f"*{title}*"]`, the per-issue loop, then
`"\n".join(lines)`. -/
def renderReport (title : String) (issues : List Issue) : Except String String :=
  match buildLines issues with
  | Except.error e => Except.error e
  | Except.ok body => Except.ok (String.intercalate "\n" (("*" ++ title ++ "*") :: body))

/-- The hard-coded placeholder issue list at line 72. -/
def demoIssues : List Issue :=
  [{ key := some "DEMO-1",
     fields := { summary := some "Example issue", statusName := some "To Do",
                 assigneeDisplayName := some "Alice" } }]

/-- One outbound network call made by the run.  The script performs no fetch
request (the fetch is a hard-coded placeholder), so the only constructor is
the Slack `chat.postMessage` call. -/
inductive NetCall where
  | post (channel text : String)
deriving DecidableEq

/-- How the process ends: normal fall-through of `main` (exit code 0),
`sys.exit(code)`, or an uncaught exception (interpreter exit code 1, with the
exception text as diagnostic). -/
inductive ExitStatus where
  | normal
  | exited (code : Nat)
  | uncaught (msg : String)
deriving DecidableEq

/-- The process exit code an `ExitStatus` produces. -/
def exitCodeOf : ExitStatus → Nat
  | ExitStatus.normal => 0
  | ExitStatus.exited c => c
  | ExitStatus.uncaught _ => 1

/-- Summary of one run: the outbound calls made, in order, and the exit. -/
structure RunResult where
  calls : List NetCall
  exit : ExitStatus
deriving DecidableEq

/-- Lines 48–55: POST to `chat.postMessage`; if the response is not `ok`,
raise `RuntimeError(f"Slack API error: {err}")`.  The network is injected as
`api channel text`, returning `none` for an `ok` response and `some err` for
a rejection with error string `err`. -/
def slack_post_message (api : String → String → Option String)
    (_tok channel text : String) : Except String Unit :=
  match api channel text with
  | none => Except.ok ()
  | some err => Except.error ("Slack API error: " ++ err)

/-- Lines 57–80, `main`: read configuration, check the six required values
(exit 1 if any is missing), render the report over the placeholder issues,
and post it to Slack; an uncaught exception terminates the run. The local
`slack_mode` (line 64) is computed and then never used, exactly as in the
source. -/
def runMain (api : String → String → Option String) (e : Env) : RunResult :=
  let _fields := fieldsOf e
  let title := e.TITLE.getD "Jira Report"
  let _tzname := e.TIMEZONE.getD "UTC"
  let _slack_mode := (e.SLACK_MESSAGE_MODE.getD "list").trim.toLower
  if !requiredPresent e then
    { calls := [], exit := ExitStatus.exited 1 }
  else
    match renderReport title demoIssues with
    | Except.error msg => { calls := [], exit := ExitStatus.uncaught msg }
    | Except.ok text =>
      let channel := e.SLACK_CHANNEL_ID.getD ""
      match slack_post_message api (e.SLACK_BOT_TOKEN.getD "") channel text with
      | Except.error msg =>
          { calls := [NetCall.post channel text], exit := ExitStatus.uncaught msg }
      | Except.ok _ =>
          { calls := [NetCall.post channel text], exit := ExitStatus.normal }

/-- Lines 40–41 of `format_date`: normalise the timestamp string before
parsing — replace every `+0000` with `+00:00`, and rewrite a trailing `Z`
to `+00:00`. -/
def preprocessDate (s : String) : String :=
  let s1 := s.replace "+0000" "+00:00"
  if s1.endsWith "Z" then s1.dropRight 1 ++ "+00:00" else s1

/-- Lines 37–46, `format_date`.  The datetime library is injected:
`parseIso` models `datetime.fromisoformat` (raising = `none`), `astz`
models `ZoneInfo(tzname)` + `astimezone` (either raising = `none`), `strf`
models `strftime`, and `zoneInfoAvail` models whether the `zoneinfo` import
succeeded.  The argument `dt_str` is `Option String` because callers may
pass `None`, which the `if not dt_str` guard treats like the empty string.
Any exception inside the `try` block returns the original `dt_str`. -/
def format_date {DT : Type} (parseIso : String → Option DT)
    (astz : DT → String → Option DT) (strf : DT → String → String)
    (zoneInfoAvail : Bool) (dt_str : Option String) (tzname fmt : String) : String :=
  match dt_str with
  | none => ""
  | some s =>
    if s.isEmpty then ""
    else
      match parseIso (preprocessDate s) with
      | none => s
      | some dt =>
        if !tzname.isEmpty && zoneInfoAvail then
          match astz dt tzname with
          | none => s
          | some dt2 => strf dt2 fmt
        else strf dt fmt

/-- Modelled from the spec: one page request of an offset-paginated source.
The real Jira fetch is absent from `src` (line 70 marks it an explicit
placeholder), so the Query Client is modelled from §4.1 of the spec: request
`pageSize` records starting at offset `startAt` of the source's `records`. -/
def fetchPage {α : Type} (records : List α) (startAt pageSize : Nat) : List α :=
  (records.drop startAt).take pageSize

/-- Modelled from the spec: the accumulation loop of `fetch_all` (§4.1),
fuelled to stay structurally recursive.  It appends each returned page and
terminates when a page returns fewer records than the requested page size. -/
def fetchAllGo {α : Type} (records : List α) (pageSize : Nat) : Nat → Nat → List α
  | _, 0 => []
  | startAt, fuel + 1 =>
    let page := fetchPage records startAt pageSize
    if page.length < pageSize then page
    else page ++ fetchAllGo records pageSize (startAt + pageSize) (fuel)

/-- Modelled from the spec: `fetch_all(spec) -> ordered sequence of Record`
(§4.1) — page through the source from offset 0, accumulating every page.
The fuel `records.length + 1` suffices for any page size ≥ 1. -/
def fetch_all {α : Type} (records : List α) (pageSize : Nat) : List α :=
  fetchAllGo records pageSize 0 (records.length + 1)

/-- The report text `main` computes (lines 62 and 74–78) as a function of the
environment: the title defaults to `"Jira Report"`, and the records are the
hard-coded placeholder list. -/
def reportText (e : Env) : Except String String :=
  renderReport (e.TITLE.getD "Jira Report") demoIssues

/-- The single report line the placeholder issue renders to. -/
def demoLine : String := "- DEMO-1 — Example issue (Status: To Do, Assignee: Alice)"

/-- A record all of whose display fields are present, used to state what the
renderer does on fully-populated input. -/
structure FullIssue where
  key : String
  summary : String
  statusName : String
  assignee : String

/-- View a fully-populated record as an `Issue`. -/
def FullIssue.toIssue (f : FullIssue) : Issue :=
  { key := some f.key,
    fields := { summary := some f.summary, statusName := some f.statusName,
                assigneeDisplayName := some f.assignee } }

/-- The per-record line format the code produces on a fully-populated record. -/
def FullIssue.line (f : FullIssue) : String :=
  "- " ++ f.key ++ " — " ++ f.summary ++ " (Status: " ++ f.statusName ++
    ", Assignee: " ++ f.assignee ++ ")"

/-- A fully-populated environment whose `TITLE` is 39000 characters long, so
the rendered report exceeds the documented 39000-character chunk limit
(`SLACK_CHUNK_LIMIT` is unset, i.e. at its documented default). -/
def longTitle : String := String.mk (List.replicate 39000 'a')

/-- Environment for the oversized-report run: all six required values set,
`TITLE` set to the 39000-character string. -/
def envLong : Env :=
  { JIRA_BASE_URL := some "https://example.atlassian.net",
    JIRA_EMAIL := some "bot@example.com",
    JIRA_API_TOKEN := some "secret",
    JIRA_JQL := some "project = DEMO",
    JIRA_FIELDS := none,
    SLACK_BOT_TOKEN := some "xoxb-1",
    SLACK_CHANNEL_ID := some "C123",
    TITLE := some longTitle,
    TIMEZONE := none,
    SLACK_MESSAGE_MODE := none,
    SLACK_CHUNK_LIMIT := none }

/-- For any title, rendering the placeholder issue list succeeds and produces
the title line joined to the single demo record line. -/
theorem renderReport_demo (t : String) :
    renderReport t demoIssues = Except.ok ("*" ++ t ++ "*" ++ "\n" ++ demoLine) := by
  rfl

/-- The fuelled pagination loop returns exactly the source's suffix from
`startAt` on, whenever the fuel covers the remaining records. -/
theorem fetchAllGo_drop {α : Type} (records : List α) (P : Nat) (hP : 1 ≤ P) :
    ∀ fuel startAt, records.length - startAt ≤ fuel →
      fetchAllGo records P startAt fuel = records.drop startAt := by
  intro fuel
  induction fuel with
  | zero =>
    intro s hs
    have hdrop : records.drop s = [] := List.drop_eq_nil_of_le (by omega)
    simp [fetchAllGo, hdrop]
  | succ n ih =>
    intro s hs
    simp only [fetchAllGo, fetchPage]
    by_cases h : ((records.drop s).take P).length < P
    · rw [if_pos h]
      have hlen : (records.drop s).length ≤ P := by
        simp only [List.length_take, List.length_drop] at h ⊢
        omega
      exact List.take_of_length_le hlen
    · rw [if_neg h]
      have hPle : P ≤ records.length - s := by
        simp only [List.length_take, List.length_drop] at h
        omega
      rw [ih (s + P) (by omega)]
      have hdd : records.drop (s + P) = (records.drop s).drop P := by
        rw [List.drop_drop, Nat.add_comm]
      rw [hdd, List.take_append_drop]

/-- C2: for a simulated source with `N` records and page size `P ≥ 1`
(including `N = 0` and `N` not a multiple of `P`), `fetch_all` returns
exactly the `N` source records, none omitted or duplicated, in original
order. -/
theorem fetch_all_complete {α : Type} (records : List α) (P : Nat) (hP : 1 ≤ P) :
    fetch_all records P = records := by
  have h := fetchAllGo_drop records P hP (records.length + 1) 0 (by omega)
  simpa [fetch_all] using h

/-- Witness for C2: five records with page size two (not a divisor of five)
are returned complete and in order. -/
theorem fetch_all_complete_witness :
    1 ≤ 2 ∧ fetch_all [10, 20, 30, 40, 50] 2 = [10, 20, 30, 40, 50] :=
  ⟨by decide, fetch_all_complete [10, 20, 30, 40, 50] 2 (by decide)⟩

/-- C4: when any of the six required configuration values is absent (or
empty), the run exits with `sys.exit(1)` — a non-zero status — and makes no
outbound network call at all (no fetch, no delivery). -/
theorem missing_config_fails_fast (api : String → String → Option String) (e : Env)
    (h : requiredPresent e = false) :
    (runMain api e).calls = [] ∧ (runMain api e).exit = ExitStatus.exited 1 ∧
      exitCodeOf (runMain api e).exit ≠ 0 := by
  simp [runMain, h, exitCodeOf]

/-- Witness for C4: the fully-unset environment is missing required values,
so the run makes no call and exits 1. -/
theorem missing_config_fails_fast_witness :
    (runMain (fun _ _ => none)
        { JIRA_BASE_URL := none, JIRA_EMAIL := none, JIRA_API_TOKEN := none,
          JIRA_JQL := none, JIRA_FIELDS := none, SLACK_BOT_TOKEN := none,
          SLACK_CHANNEL_ID := none, TITLE := none, TIMEZONE := none,
          SLACK_MESSAGE_MODE := none, SLACK_CHUNK_LIMIT := none }).calls = [] ∧
    (runMain (fun _ _ => none)
        { JIRA_BASE_URL := none, JIRA_EMAIL := none, JIRA_API_TOKEN := none,
          JIRA_JQL := none, JIRA_FIELDS := none, SLACK_BOT_TOKEN := none,
          SLACK_CHANNEL_ID := none, TITLE := none, TIMEZONE := none,
          SLACK_MESSAGE_MODE := none, SLACK_CHUNK_LIMIT := none }).exit =
      ExitStatus.exited 1 ∧
    exitCodeOf (runMain (fun _ _ => none)
        { JIRA_BASE_URL := none, JIRA_EMAIL := none, JIRA_API_TOKEN := none,
          JIRA_JQL := none, JIRA_FIELDS := none, SLACK_BOT_TOKEN := none,
          SLACK_CHANNEL_ID := none, TITLE := none, TIMEZONE := none,
          SLACK_MESSAGE_MODE := none, SLACK_CHUNK_LIMIT := none }).exit ≠ 0 :=
  missing_config_fails_fast (fun _ _ => none) _ (by decide)

/-- C5: if the configuration is complete and Slack rejects the delivery of
the rendered text with error `err`, the `RuntimeError` propagates uncaught:
the process exits non-zero with the diagnostic `Slack API error: err`, and
the call log still holds exactly the one delivery attempt (nothing is
retracted or resent). -/
theorem delivery_failure_propagates (api : String → String → Option String) (e : Env)
    (text err : String)
    (hreq : requiredPresent e = true)
    (hr : renderReport (e.TITLE.getD "Jira Report") demoIssues = Except.ok text)
    (hapi : api (e.SLACK_CHANNEL_ID.getD "") text = some err) :
    (runMain api e).calls = [NetCall.post (e.SLACK_CHANNEL_ID.getD "") text] ∧
    (runMain api e).exit = ExitStatus.uncaught ("Slack API error: " ++ err) ∧
    exitCodeOf (runMain api e).exit ≠ 0 := by
  simp [runMain, hreq, hr, slack_post_message, hapi, exitCodeOf]

/-- Witness for C5: a complete configuration whose Slack API rejects every
message with `channel_not_found` yields a non-zero exit, the diagnostic, and
exactly one attempted call. -/
theorem delivery_failure_propagates_witness :
    (runMain (fun _ _ => some "channel_not_found")
        { JIRA_BASE_URL := some "https://example.atlassian.net",
          JIRA_EMAIL := some "bot@example.com", JIRA_API_TOKEN := some "secret",
          JIRA_JQL := some "project = DEMO", JIRA_FIELDS := none,
          SLACK_BOT_TOKEN := some "xoxb-1", SLACK_CHANNEL_ID := some "C123",
          TITLE := none, TIMEZONE := none, SLACK_MESSAGE_MODE := none,
          SLACK_CHUNK_LIMIT := none }).exit =
      ExitStatus.uncaught ("Slack API error: " ++ "channel_not_found") :=
  (delivery_failure_propagates (fun _ _ => some "channel_not_found")
    { JIRA_BASE_URL := some "https://example.atlassian.net",
      JIRA_EMAIL := some "bot@example.com", JIRA_API_TOKEN := some "secret",
      JIRA_JQL := some "project = DEMO", JIRA_FIELDS := none,
      SLACK_BOT_TOKEN := some "xoxb-1", SLACK_CHANNEL_ID := some "C123",
      TITLE := none, TIMEZONE := none, SLACK_MESSAGE_MODE := none,
      SLACK_CHUNK_LIMIT := none }
    ("*Jira Report*" ++ "\n" ++ demoLine) "channel_not_found"
    (by decide) (renderReport_demo "Jira Report") rfl).2.1

/-- C10: `JIRA_FIELDS` is not a required value: when it is unset or empty the
field list falls back to the default
`["key","summary","status","assignee","updated"]`, and a run whose required
values are present never takes the missing-configuration `sys.exit(1)`. -/
theorem fields_not_required (api : String → String → Option String) (e : Env)
    (hf : e.JIRA_FIELDS = none ∨ e.JIRA_FIELDS = some "")
    (hreq : requiredPresent e = true) :
    fieldsOf e = ["key", "summary", "status", "assignee", "updated"] ∧
    (runMain api e).exit ≠ ExitStatus.exited 1 := by
  constructor
  · rcases hf with h | h <;>
      simp [fieldsOf, h, defaultFields, show "".isEmpty = true from rfl]
  · rcases h' : api (e.SLACK_CHANNEL_ID.getD "")
        ("*" ++ e.TITLE.getD "Jira Report" ++ "*" ++ "\n" ++ demoLine) with _ | err <;>
      simp [runMain, hreq, renderReport_demo, slack_post_message, h']

/-- Witness for C10: with `JIRA_FIELDS` unset and all required values set,
the default field list is used and the missing-configuration exit is not
taken. -/
theorem fields_not_required_witness :
    fieldsOf
        { JIRA_BASE_URL := some "https://example.atlassian.net",
          JIRA_EMAIL := some "bot@example.com", JIRA_API_TOKEN := some "secret",
          JIRA_JQL := some "project = DEMO", JIRA_FIELDS := none,
          SLACK_BOT_TOKEN := some "xoxb-1", SLACK_CHANNEL_ID := some "C123",
          TITLE := none, TIMEZONE := none, SLACK_MESSAGE_MODE := none,
          SLACK_CHUNK_LIMIT := none } =
      ["key", "summary", "status", "assignee", "updated"] ∧
    (runMain (fun _ _ => none)
        { JIRA_BASE_URL := some "https://example.atlassian.net",
          JIRA_EMAIL := some "bot@example.com", JIRA_API_TOKEN := some "secret",
          JIRA_JQL := some "project = DEMO", JIRA_FIELDS := none,
          SLACK_BOT_TOKEN := some "xoxb-1", SLACK_CHANNEL_ID := some "C123",
          TITLE := none, TIMEZONE := none, SLACK_MESSAGE_MODE := none,
          SLACK_CHUNK_LIMIT := none }).exit ≠ ExitStatus.exited 1 :=
  fields_not_required (fun _ _ => none) _ (Or.inl rfl) (by decide)

/-- C9: `format_date` is total (it always returns a string, never raises):
it returns `""` on `None` or empty input; returns the original input string
when the normalised string does not parse as an ISO date, or when the
timezone conversion fails; and otherwise returns the parsed date formatted
with the given pattern (converted to the timezone when one is given and
`zoneinfo` is available). -/
theorem format_date_total_cases {DT : Type} (parseIso : String → Option DT)
    (astz : DT → String → Option DT) (strf : DT → String → String)
    (zAvail : Bool) (d : Option String) (tz fmt : String) :
    (d = none ∨ d = some "" → format_date parseIso astz strf zAvail d tz fmt = "") ∧
    (∀ s, d = some s → s.isEmpty = false → parseIso (preprocessDate s) = none →
      format_date parseIso astz strf zAvail d tz fmt = s) ∧
    (∀ s dt, d = some s → s.isEmpty = false → parseIso (preprocessDate s) = some dt →
      (tz.isEmpty = true ∨ zAvail = false) →
      format_date parseIso astz strf zAvail d tz fmt = strf dt fmt) ∧
    (∀ s dt, d = some s → s.isEmpty = false → parseIso (preprocessDate s) = some dt →
      tz.isEmpty = false → zAvail = true → astz dt tz = none →
      format_date parseIso astz strf zAvail d tz fmt = s) ∧
    (∀ s dt dt2, d = some s → s.isEmpty = false → parseIso (preprocessDate s) = some dt →
      tz.isEmpty = false → zAvail = true → astz dt tz = some dt2 →
      format_date parseIso astz strf zAvail d tz fmt = strf dt2 fmt) := by
  refine ⟨?_, ?_, ?_, ?_, ?_⟩
  · rintro (rfl | rfl) <;> simp [format_date, show "".isEmpty = true from rfl]
  · rintro s rfl hs hp
    simp [format_date, hs, hp]
  · rintro s dt rfl hs hp (hz | hz)
    · simp [format_date, hs, hp, hz]
    · simp [format_date, hs, hp, hz]
  · rintro s dt rfl hs hp htz rfl ha
    simp [format_date, hs, hp, htz, ha]
  · rintro s dt dt2 rfl hs hp htz rfl ha
    simp [format_date, hs, hp, htz, ha]

/-- Witness for C9: with an injected parser that rejects everything, a
non-empty unparseable input is returned unchanged. -/
theorem format_date_total_cases_witness :
    format_date (fun _ => (none : Option Nat)) (fun d _ => some d)
        (fun _ _ => "formatted") true (some "not-a-date") "UTC" "%Y-%m-%d" =
      "not-a-date" :=
  (format_date_total_cases (fun _ => (none : Option Nat)) (fun d _ => some d)
      (fun _ _ => "formatted") true (some "not-a-date") "UTC" "%Y-%m-%d").2.1
    "not-a-date" rfl rfl rfl

/-- C8: rendering is deterministic — two environments that agree on the
title and the message style (the record set is the same in every run)
produce byte-identical report text. -/
theorem render_deterministic (e1 e2 : Env)
    (ht : e1.TITLE = e2.TITLE)
    (_hm : e1.SLACK_MESSAGE_MODE = e2.SLACK_MESSAGE_MODE) :
    reportText e1 = reportText e2 := by
  simp [reportText, ht]

/-- Witness for C8: two environments that differ in `TIMEZONE` but share the
title and style render identically. -/
theorem render_deterministic_witness :
    reportText
        { JIRA_BASE_URL := some "a", JIRA_EMAIL := some "b",
          JIRA_API_TOKEN := some "c", JIRA_JQL := some "d", JIRA_FIELDS := none,
          SLACK_BOT_TOKEN := some "e", SLACK_CHANNEL_ID := some "f",
          TITLE := some "T", TIMEZONE := some "UTC",
          SLACK_MESSAGE_MODE := some "list", SLACK_CHUNK_LIMIT := none } =
    reportText
        { JIRA_BASE_URL := some "a", JIRA_EMAIL := some "b",
          JIRA_API_TOKEN := some "c", JIRA_JQL := some "d", JIRA_FIELDS := none,
          SLACK_BOT_TOKEN := some "e", SLACK_CHANNEL_ID := some "f",
          TITLE := some "T", TIMEZONE := some "Europe/Paris",
          SLACK_MESSAGE_MODE := some "list", SLACK_CHUNK_LIMIT := none } :=
  render_deterministic _ _ rfl rfl

/-- C7 (code evaluated at the failing configuration): `SLACK_MESSAGE_MODE`
is read at line 64 and never used, so the whole run — in particular the
delivered text — is identical under style `plain` and style `list`, for any
environment and any Slack behaviour.  This contradicts both the claim and
the script's own docstring ("Respects SLACK_MESSAGE_MODE=(list|plain)"). -/
theorem slack_mode_ignored (api : String → String → Option String) (e : Env)
    (m1 m2 : Option String) :
    runMain api { e with SLACK_MESSAGE_MODE := m1 } =
      runMain api { e with SLACK_MESSAGE_MODE := m2 } := by
  rfl

/-- C3 (code evaluated at the failing input): rendering a record whose
`fields` mapping lacks `summary` raises `KeyError` — the report fails
instead of substituting a placeholder. -/
theorem missing_field_raises :
    renderReport "Jira Report"
        [{ key := some "DEMO-2",
           fields := { summary := none, statusName := some "To Do",
                       assigneeDisplayName := some "Alice" } }] =
      Except.error "KeyError: summary" := by
  rfl

/-- C6 counterexample: for the concrete grouped input consisting of the one
group `"To Do"` holding the one placeholder record, the claimed list-style
shape needs `1 + #groups + #records = 3` lines (title, a group-header line
with name and count, one record line), but the code renders exactly
`1 + #records = 2` lines — there is no group-header line at all, and the
record line is bullet-prefixed `- key — …`. -/
theorem list_style_counterexample :
    renderReport "Jira Report" demoIssues =
      Except.ok ("*Jira Report*" ++ "\n" ++
        "- DEMO-1 — Example issue (Status: To Do, Assignee: Alice)") ∧
    ("*Jira Report*" ++ "\n" ++
        "- DEMO-1 — Example issue (Status: To Do, Assignee: Alice)").data.count
      (Char.ofNat 10) + 1 = 1 + demoIssues.length ∧
    1 + demoIssues.length ≠ 1 + 1 + demoIssues.length := by
  refine ⟨rfl, by decide, by decide⟩

/-- C6 as amended: for every title and every record list whose display
fields are all present, the rendered report is the title line `*title*`
followed by exactly one line per record, in order, each of the form
`- key — summary (Status: …, Assignee: …)` — with no group-header lines. -/
theorem render_flat_list (title : String) (fs : List FullIssue) :
    renderReport title (fs.map FullIssue.toIssue) =
      Except.ok (String.intercalate "\n"
        (("*" ++ title ++ "*") :: fs.map FullIssue.line)) := by
  have h : buildLines (fs.map FullIssue.toIssue) = Except.ok (fs.map FullIssue.line) := by
    induction fs with
    | nil => rfl
    | cons f rest ih =>
      simp [buildLines, renderIssueLine, FullIssue.toIssue, FullIssue.line, ih]
  simp [renderReport, h]

/-- C1 (code evaluated at the failing input): with every required value set,
`SLACK_CHUNK_LIMIT` unset (documented default 39000) and a 39000-character
title, the run delivers a single message whose body is strictly longer than
39000 characters — `main` never splits the rendered report. -/
theorem oversized_single_post :
    ∃ t, (runMain (fun _ _ => none) envLong).calls = [NetCall.post "C123" t] ∧
      39000 < t.length := by
  refine ⟨"*" ++ longTitle ++ "*" ++ "\n" ++ demoLine, ?_, ?_⟩
  · have hreq : requiredPresent envLong = true := by decide
    simp [runMain, hreq, renderReport_demo, slack_post_message,
      show envLong.TITLE = some longTitle from rfl,
      show envLong.SLACK_CHANNEL_ID = some "C123" from rfl]
  · have h1 : longTitle.length = 39000 := by
      simp only [longTitle, String.length_mk, List.length_replicate]
    have h2 : "*".length = 1 := by decide
    have h3 : "\n".length = 1 := by decide
    simp only [String.length_append, h1, h2, h3]
    omega
